import Mathlib

/-!
# Verification of `relenv/runtime.py` (runtime relocation layer)

Shallow embedding of the runtime relocation layer of the `relenv`
repository (`src/relenv/runtime.py`) and proofs of the specification's
claims about it.

Conventions of the embedding:
* `os.environ` is modelled as an association list `Env`;
  `os.environ.get(k)` is `Env.get`, `k in os.environ` is `Env.contains`,
  and Python truthiness of an optional string (absent or empty is falsy)
  is `strTruthy`.
* `pathlib.Path` values appear in two faithful guises: as plain strings
  joined by `pjoin` (which, like `pathlib`, lets an absolute right operand
  replace the left), and, where the claim is about directory-level
  arithmetic, as component lists `PPath` with `PPath.parent` dropping the
  last component.
* Fallible Python code (tuple unpacking, indexing) is `Except String`.
* External collaborators (`relocate.is_elf`, file existence,
  `format_shebang`) are oracle parameters; the rewrite primitive
  `relocate.handle_elf` is observed through the list of `ElfCall`
  records the wrapped installers emit.
-/

/-- `os.environ` modelled as an association list from names to values. -/
def Env : Type := List (String × String)

/-- `os.environ.get(k)`: value of the first binding of `k`, if any. -/
def Env.get (e : Env) (k : String) : Option String :=
  match e with
  | [] => none
  | (k', v) :: rest => if k' = k then some v else Env.get rest k

/-- `k in os.environ`. -/
def Env.contains (e : Env) (k : String) : Bool :=
  (e.get k).isSome

/-- `os.environ[k] = v`: replace the binding of `k`, or append one. -/
def Env.set (e : Env) (k v : String) : Env :=
  match e with
  | [] => [(k, v)]
  | (k', v') :: rest =>
      if k' = k then (k, v) :: rest else (k', v') :: Env.set rest k v

/-- Python truthiness of `os.environ.get(k)`: `None` and `""` are falsy. -/
def strTruthy (o : Option String) : Bool :=
  match o with
  | none => false
  | some s => s ≠ ""

/-- Python `s.startswith(pre)`, written over character lists so that it
evaluates by kernel reduction. -/
def pyStartsWith (s pre : String) : Bool := pre.toList.isPrefixOf s.toList

/-- The characters Python's bare `str.strip()` removes. -/
def isPySpace (c : Char) : Bool :=
  c = ' ' || c = '\t' || c = '\n' || c = '\r' || c = '\x0B' || c = '\x0C'

/-- Python `s.strip()`: remove leading and trailing whitespace. -/
def pyStrip (s : String) : String :=
  ((s.toList.dropWhile isPySpace).reverse.dropWhile isPySpace).reverse.asString

/-- Left-to-right, non-overlapping split of `cs` on the non-empty
separator `sep`; `fuel` (instantiated to `cs.length`, an upper bound on
the number of steps) makes the recursion structural. -/
def splitOnAuxFuel (sep : List Char) : Nat → List Char → List Char →
    List (List Char)
  | _, [], acc => [acc.reverse]
  | 0, cs, acc => [acc.reverse ++ cs]
  | fuel + 1, c :: rest, acc =>
    if sep.isPrefixOf (c :: rest) then
      acc.reverse :: splitOnAuxFuel sep fuel (List.drop (sep.length - 1) rest) []
    else splitOnAuxFuel sep fuel rest (c :: acc)

/-- Python `s.split(sep)` for a non-empty separator `sep` and no
`maxsplit` bound (the one `maxsplit=1` use site only reads field 0,
where the bound is irrelevant). -/
def pySplitOn (s sep : String) : List String :=
  (splitOnAuxFuel sep.toList s.toList.length s.toList []).map List.asString

/-- `pathlib` joining on string paths: an absolute right operand replaces
the left operand, otherwise the components are joined with `/`. -/
def pjoin (a b : String) : String :=
  if pyStartsWith b "/" then b else a ++ "/" ++ b

/-- A filesystem path as its list of components (`pathlib.Path` where only
`parent` and `/ component` are used). -/
abbrev PPath := List String

/-- `Path.parent`: drop the last component (the parent of the empty path
is itself, as in `pathlib` where the parent of the root is the root). -/
def PPath.parent (p : PPath) : PPath := p.dropLast

/-- `p / c` for a single relative component `c`. -/
def PPath.child (p : PPath) (c : String) : PPath := p ++ [c]

/-- `relenv_root()` (runtime.py lines 56-65): the relenv module root,
computed from the relocation layer's own module directory `MODULE_DIR`
and `sys.platform`; three `parent` steps on `win32`, four elsewhere. -/
def relenv_root (MODULE_DIR : PPath) (platform : String) : PPath :=
  if platform = "win32" then
    MODULE_DIR.parent.parent.parent
  else
    MODULE_DIR.parent.parent.parent.parent

/-- `_build_shebang(*args, **kwargs)` (runtime.py lines 68-82).  The
Python function ignores its arguments and reads `sys.platform` and
`os.environ`; `format_shebang` is the collaborator helper imported from
`relenv.common`, taken here as an oracle parameter.  The `.encode()`
calls only convert `str` to `bytes`, so the result is modelled as the
string. -/
def _build_shebang (format_shebang : String → String) (platform : String)
    (env : Env) : String :=
  if platform = "win32" then
    if strTruthy (env.get "RELENV_PIP_DIR") then
      "#!<launcher_dir>\\Scripts\\python.exe"
    else
      "#!<launcher_dir>\\python.exe"
  else if strTruthy (env.get "RELENV_PIP_DIR") then
    format_shebang "/bin/python3"
  else
    format_shebang "/python3"

/-- Result of the wrapped `get_config_var`: either a `Path` computed by
the wrapper or the original accessor's value passed through. -/
inductive ConfigVal where
  | path : PPath → ConfigVal
  | orig : String → ConfigVal
deriving DecidableEq

/-- The `wrapped` closure produced by `get_config_var_wrapper(func)`
(runtime.py lines 85-104): for `"BINDIR"` it returns `relenv_root()`
when `RELENV_PIP_DIR` is truthy and `relenv_root() / "Scripts"`
otherwise; every other name is delegated to `func`. -/
def get_config_var_wrapped (func : String → String) (env : Env)
    (MODULE_DIR : PPath) (platform : String) (name : String) : ConfigVal :=
  if name = "BINDIR" then
    if strTruthy (env.get "RELENV_PIP_DIR") then
      ConfigVal.path (relenv_root MODULE_DIR platform)
    else
      ConfigVal.path ((relenv_root MODULE_DIR platform).child "Scripts")
  else
    ConfigVal.orig (func name)

/-- The per-target one-shot flags of `RelenvImporter` (runtime.py lines
280-290), all initially `False`.  `loading_sysconfig_data` is declared in
the class but never read or written by `find_module`/`load_module`; it is
kept for fidelity. -/
structure RelenvImporter where
  loading_pip_scripts : Bool := false
  loading_sysconfig_data : Bool := false
  loading_sysconfig : Bool := false
  loading_distutils : Bool := false
  loading_op_wheel : Bool := false
  loading_op_legacy : Bool := false
deriving DecidableEq

/-- How many times each target's patch assignment has been executed:
`load_module` increments the counter of the branch it takes.  (For the
four branches that assign `wrapper(current)` this is also the wrap
depth of the patched attribute; the `pip._vendor.distlib.scripts`
branch instead reassigns a fixed module-level function, so there the
count records executions only — see `assignBuildShebang`.) -/
structure PatchCounts where
  sysconfig : Nat := 0
  pip_scripts : Nat := 0
  distutils : Nat := 0
  op_wheel : Nat := 0
  op_legacy : Nat := 0
deriving DecidableEq

/-- `RelenvImporter.find_module(module_name)` (runtime.py lines 292-333):
returns whether a match was reported (`self` in Python, `None` otherwise)
together with the updated flags.  A match transitions the target's flag
to the transient "patching" state (`True`). -/
def find_module (s : RelenvImporter) (module_name : String) :
    Bool × RelenvImporter :=
  if pyStartsWith module_name "sysconfig" then
    if s.loading_sysconfig then (false, s)
    else (true, { s with loading_sysconfig := true })
  else if module_name = "pip._vendor.distlib.scripts" then
    if s.loading_pip_scripts then (false, s)
    else (true, { s with loading_pip_scripts := true })
  else if module_name = "distutils.command.build_ext" then
    if s.loading_distutils then (false, s)
    else (true, { s with loading_distutils := true })
  else if module_name = "pip._internal.operations.install.wheel" then
    if s.loading_op_wheel then (false, s)
    else (true, { s with loading_op_wheel := true })
  else if module_name = "pip._internal.operations.install.legacy" then
    if s.loading_op_legacy then (false, s)
    else (true, { s with loading_op_legacy := true })
  else (false, s)

/-- `RelenvImporter.load_module(name)` (runtime.py lines 335-379): loads
the real module, applies the branch's patch (modelled by incrementing
that target's `PatchCounts` entry), and resets the target's flag to
`False` — except in the `distutils.command.build_ext` branch, which
never resets `loading_distutils`.  A name matching no branch leaves
`mod` unbound and raises in Python, hence `none`. -/
def load_module (s : RelenvImporter) (c : PatchCounts) (name : String) :
    Option (RelenvImporter × PatchCounts) :=
  if pyStartsWith name "sysconfig" then
    some ({ s with loading_sysconfig := false },
          { c with sysconfig := c.sysconfig + 1 })
  else if name = "pip._vendor.distlib.scripts" then
    some ({ s with loading_pip_scripts := false },
          { c with pip_scripts := c.pip_scripts + 1 })
  else if name = "distutils.command.build_ext" then
    some (s, { c with distutils := c.distutils + 1 })
  else if name = "pip._internal.operations.install.wheel" then
    some ({ s with loading_op_wheel := false },
          { c with op_wheel := c.op_wheel + 1 })
  else if name = "pip._internal.operations.install.legacy" then
    some ({ s with loading_op_legacy := false },
          { c with op_legacy := c.op_legacy + 1 })
  else none

/-- Whole-process importer state: the flags and the patch counters. -/
structure ProcState where
  importer : RelenvImporter := {}
  counts : PatchCounts := {}
deriving DecidableEq

/-- One probe/materialize cycle of the import machinery for `name`: the
host calls `find_module`; only when it reports a match does it call
`load_module` on the same name (the two-phase protocol of the
`sys.meta_path` finder/loader interface). -/
def importStep (st : ProcState) (name : String) : ProcState :=
  match find_module st.importer name with
  | (true, imp) =>
      match load_module imp st.counts name with
      | some (imp', c') => ⟨imp', c'⟩
      | none => ⟨imp, st.counts⟩
  | (false, imp) => { st with importer := imp }

/-- A process run: the probe/materialize cycles for a sequence of
imported module names, from a given state. -/
def runTrace (st : ProcState) (names : List String) : ProcState :=
  names.foldl importStep st

/-- The value of the `ScriptMaker._build_shebang` attribute patched by
the `pip._vendor.distlib.scripts` branch: either the class's original
method or the relenv module-level `_build_shebang` function. -/
inductive ShebangAttr where
  | original
  | relenvBuildShebang
deriving DecidableEq

/-- The attribute effect of runtime.py line 360,
`mod.ScriptMaker._build_shebang = _build_shebang`: a plain reassignment
of the module-level function that ignores the current attribute value
(it does not wrap it). -/
def assignBuildShebang (_current : ShebangAttr) : ShebangAttr :=
  ShebangAttr.relenvBuildShebang

/-- The attribute effect, measured as wrapper-layer count, of the
wrapping assignments of `load_module` — `mod.get_config_var =
get_config_var_wrapper(mod.get_config_var)` (runtime.py line 347),
`mod.get_paths = get_paths_wrapper(...)` (line 355),
`mod.build_ext.finalize_options = finalize_options_wrapper(...)`
(line 365), `mod.install_wheel = install_wheel_wrapper(...)` (line 371)
and `mod.install = install_legacy_wrapper(...)` (line 376): each
composes a new wrapper around the current attribute, one layer
deeper. -/
def wrapLayers (depth : Nat) : Nat := depth + 1

/-- Python `str.strip('"')`: remove leading and trailing `"` characters. -/
def stripQuotes (s : String) : String :=
  ((s.toList.dropWhile (· = '"')).reverse.dropWhile (· = '"')).reverse.asString

/-- Outcome of the trust-store discovery subprocess
(`subprocess.run([openssl_bin, "version", "-d"], ...)`), as seen by
`bootstrap`. -/
structure ProcResult where
  returncode : Int
  stdout : String
  stderr : String

/-- The `SSL_CERT_DIR` write `bootstrap()` performs after a successful
parse of the discovery output (runtime.py lines 423-424): set to
`path / "certs"` unless the variable is already truthy. -/
def trustStoreEnv₁ (env : Env) (path : String) : Env :=
  if ¬ strTruthy (env.get "SSL_CERT_DIR") then
    env.set "SSL_CERT_DIR" (pjoin path "certs")
  else env

/-- The `SSL_CERT_FILE` write on top of `trustStoreEnv₁` (runtime.py
lines 425-427). -/
def trustStoreSuccessEnv (env : Env) (directory : String)
    (certFileExists : String → Bool) : Env :=
  let path := stripQuotes (pyStrip directory)
  let env₁ := trustStoreEnv₁ env path
  let cert_file := pjoin path "cert.pem"
  if certFileExists cert_file ∧ ¬ strTruthy (env₁.get "SSL_CERT_FILE") then
    env₁.set "SSL_CERT_FILE" cert_file
  else env₁

/-- The trust-store discovery part of `bootstrap()` (runtime.py lines
399-427).  Oracles: `platform` is `sys.platform`, `whichOpenssl` is
`shutil.which("openssl")`, `proc` the subprocess outcome (consulted only
when a subprocess is spawned), `certFileExists` is
`pathlib.Path.exists`.  Returns the updated environment and whether the
discovery subprocess was spawned; `Except.error` marks the `ValueError`
raised by the tuple unpacking `_, directory = proc.stdout.split(":")`
when the split does not yield exactly two fields. -/
def bootstrapTrustStore (platform : String) (env : Env)
    (whichOpenssl : Option String) (proc : ProcResult)
    (certFileExists : String → Bool) : Except String (Env × Bool) :=
  if ¬ env.contains "SSL_CERT_DIR" ∧ platform ≠ "win32" then
    match whichOpenssl with
    | none => Except.ok (env, false)
    | some _ =>
        if proc.returncode ≠ 0 then Except.ok (env, true)
        else
          match pySplitOn proc.stdout ":" with
          | [_, directory] =>
              Except.ok (trustStoreSuccessEnv env directory certFileExists, true)
          | _ => Except.error "ValueError: unpacking proc.stdout.split"
  else Except.ok (env, false)

/-- One invocation of the Relocation Collaborator's rewrite primitive
`relocate.handle_elf(file, libdir, write_enabled, root_scope)`, recorded
with its four arguments. -/
structure ElfCall where
  file : String
  libdir : String
  writeEnabled : Bool
  rootScope : String
deriving DecidableEq

/-- First comma-delimited field of a `RECORD` line
(`line.split(",", 1)[0]`). -/
def recordFirstField (line : String) : String :=
  (pySplitOn line ",").headD ""

/-- The manifest pass of the `wrapper` produced by
`install_wheel_wrapper(func)` (runtime.py lines 136-184), after the
delegation to `func`: for each `RECORD` line, `file = plat /
line.split(",", 1)[0]`; a missing file is skipped (debug only); an
existing file detected as ELF produces the call
`relocate.handle_elf(plat / file, rootdir / "lib", True, rootdir)`.
`plat` is `scheme.platlib`, `rootdir` is `relenv_root()`; `fileExists`
and `isElf` are the filesystem and `relocate.is_elf` oracles. -/
def installWheelCalls (plat rootdir : String) (recordLines : List String)
    (fileExists isElf : String → Bool) : List ElfCall :=
  recordLines.filterMap fun line =>
    let file := pjoin plat (recordFirstField line)
    if ¬ fileExists file then none
    else if isElf file then
      some ⟨pjoin plat file, pjoin rootdir "lib", true, rootdir⟩
    else none

/-- The `PKG-INFO` scan of `install_legacy_wrapper` (runtime.py lines
215-228): walk the lines accumulating `name` and `version`, with the
early `break` once both are known; `line.split("Version: ")[1]` (and the
`Name` analogue) raises `IndexError` when the prefix line lacks the
`": "`-separated payload. -/
def parsePkgInfo : List String → Option String → Option String →
    Except String (Option String × Option String)
  | [], name, version => Except.ok (name, version)
  | line :: rest, name, version =>
    if pyStartsWith line "Version:" then
      match (pySplitOn line "Version: ").get? 1 with
      | none => Except.error "IndexError"
      | some v =>
          let version := some (pyStrip v)
          if name.isSome then Except.ok (name, version)
          else parsePkgInfo rest name version
    else if pyStartsWith line "Name:" then
      match (pySplitOn line "Name: ").get? 1 with
      | none => Except.error "IndexError"
      | some n =>
          let name := some (pyStrip n)
          if version.isSome then Except.ok (name, version)
          else parsePkgInfo rest name version
    else parsePkgInfo rest name version

/-- Python `str(x)` for the optional parsed name/version as it appears
inside the f-string `f"{name}-{version}"`: `None` prints as `"None"`. -/
def optStr (o : Option String) : String := o.getD "None"

/-- The egg-info search of `install_legacy_wrapper` (runtime.py lines
245-260): when `prefix` is truthy, scan the sorted version-specific
site-packages candidates for the first directory name starting with
`f"{name}-{version}"`; then unconditionally scan the sorted
`scheme.purelib` candidates, a match there overwriting the earlier one.
The candidate lists are the `sorted(....glob("*.egg-info"))` results. -/
def selectEgginfo (name version : Option String)
    (prefixDirs : Option (List String)) (purelibDirs : List String) :
    Option String :=
  let key := optStr name ++ "-" ++ optStr version
  let egginfo : Option String :=
    match prefixDirs with
    | some dirs => dirs.find? (fun p => pyStartsWith p key)
    | none => none
  match purelibDirs.find? (fun p => pyStartsWith p key) with
  | some p => some p
  | none => egginfo

/-- The `installed-files.txt` pass of `install_legacy_wrapper`
(runtime.py lines 266-275): each line is stripped and resolved to a file
(`pathlib.Path(line.strip()).resolve()`, modelled as the stripped
string, the manifest holding absolute paths); missing files are skipped,
ELF files produce `relocate.handle_elf(plat / file, rootdir / "lib",
True, rootdir)`. -/
def legacyManifestCalls (plat rootdir : String) (lines : List String)
    (fileExists isElf : String → Bool) : List ElfCall :=
  lines.filterMap fun line =>
    let file := pyStrip line
    if ¬ fileExists file then none
    else if isElf file then
      some ⟨pjoin plat file, pjoin rootdir "lib", true, rootdir⟩
    else none

/-- Outcome of the post-delegation phase of the legacy install wrapper:
either no matching egg-info directory was found (logged, non-fatal
return) or exactly one directory's manifest was processed. -/
inductive LegacyResult where
  | notFound
  | processed (egginfo : String) (calls : List ElfCall)
deriving DecidableEq

/-- The `wrapper` produced by `install_legacy_wrapper(func)` (runtime.py
lines 187-277) after the delegation to `func`: parse `PKG-INFO`, search
for the egg-info directory, and either return non-fatally (`notFound`)
or process that directory's `installed-files.txt`.  `manifests` maps an
egg-info directory to the lines of its `installed-files.txt`. -/
def installLegacyPost (pkgInfoLines : List String)
    (prefixDirs : Option (List String)) (purelibDirs : List String)
    (manifests : String → List String) (plat rootdir : String)
    (fileExists isElf : String → Bool) : Except String LegacyResult :=
  match parsePkgInfo pkgInfoLines none none with
  | Except.error e => Except.error e
  | Except.ok (name, version) =>
      match selectEgginfo name version prefixDirs purelibDirs with
      | none => Except.ok LegacyResult.notFound
      | some egginfo =>
          Except.ok (LegacyResult.processed egginfo
            (legacyManifestCalls plat rootdir (manifests egginfo)
              fileExists isElf))

/-- C4: for every argument list, `_build_shebang` returns exactly: on
`win32` with `RELENV_PIP_DIR` truthy the literal
`#!<launcher_dir>\Scripts\python.exe`; on `win32` with it falsy the
literal `#!<launcher_dir>\python.exe`; on any other platform the
collaborator's relative form `format_shebang "/bin/python3"` when truthy
and `format_shebang "/python3"` when falsy. -/
theorem build_shebang_cases (format_shebang : String → String) (env : Env) :
    (strTruthy (env.get "RELENV_PIP_DIR") = true →
      _build_shebang format_shebang "win32" env =
        "#!<launcher_dir>\\Scripts\\python.exe") ∧
    (strTruthy (env.get "RELENV_PIP_DIR") = false →
      _build_shebang format_shebang "win32" env =
        "#!<launcher_dir>\\python.exe") ∧
    (∀ platform, platform ≠ "win32" →
      (strTruthy (env.get "RELENV_PIP_DIR") = true →
        _build_shebang format_shebang platform env =
          format_shebang "/bin/python3") ∧
      (strTruthy (env.get "RELENV_PIP_DIR") = false →
        _build_shebang format_shebang platform env =
          format_shebang "/python3")) := by
  refine ⟨fun h => ?_, fun h => ?_, fun platform hp => ⟨fun h => ?_, fun h => ?_⟩⟩
  · simp [_build_shebang, h]
  · simp [_build_shebang, h]
  · simp [_build_shebang, h, hp]
  · simp [_build_shebang, h, hp]

/-- Witness for C4: the four cases of `build_shebang_cases` evaluated at
concrete platforms and environments. -/
theorem build_shebang_cases_witness :
    _build_shebang (fun s => "#!" ++ s) "linux" [("RELENV_PIP_DIR", "1")] =
      "#!/bin/python3" ∧
    _build_shebang (fun s => "#!" ++ s) "linux" [] = "#!/python3" ∧
    _build_shebang (fun s => "#!" ++ s) "win32" [("RELENV_PIP_DIR", "1")] =
      "#!<launcher_dir>\\Scripts\\python.exe" ∧
    _build_shebang (fun s => "#!" ++ s) "win32" [] =
      "#!<launcher_dir>\\python.exe" :=
  ⟨((build_shebang_cases _ _).2.2 "linux" (by decide)).1 (by decide),
   ((build_shebang_cases _ _).2.2 "linux" (by decide)).2 (by decide),
   (build_shebang_cases _ _).1 (by decide),
   (build_shebang_cases _ _).2.1 (by decide)⟩

/-- C6: the wrapped `get_config_var` returns `relenv_root() / "Scripts"`
for `"BINDIR"` when `RELENV_PIP_DIR` is falsy, the bare `relenv_root()`
for `"BINDIR"` when it is truthy, and exactly the original accessor's
value for every other variable name. -/
theorem get_config_var_wrapped_cases (func : String → String) (env : Env)
    (MODULE_DIR : PPath) (platform : String) :
    (strTruthy (env.get "RELENV_PIP_DIR") = false →
      get_config_var_wrapped func env MODULE_DIR platform "BINDIR" =
        ConfigVal.path ((relenv_root MODULE_DIR platform).child "Scripts")) ∧
    (strTruthy (env.get "RELENV_PIP_DIR") = true →
      get_config_var_wrapped func env MODULE_DIR platform "BINDIR" =
        ConfigVal.path (relenv_root MODULE_DIR platform)) ∧
    (∀ name, name ≠ "BINDIR" →
      get_config_var_wrapped func env MODULE_DIR platform name =
        ConfigVal.orig (func name)) := by
  refine ⟨fun h => ?_, fun h => ?_, fun name hn => ?_⟩
  · simp [get_config_var_wrapped, h]
  · simp [get_config_var_wrapped, h]
  · simp [get_config_var_wrapped, hn]

/-- Witness for C6: `get_config_var_wrapped_cases` evaluated at a
concrete module directory, platform, environment and variable names. -/
theorem get_config_var_wrapped_cases_witness :
    get_config_var_wrapped (fun n => n) [] ["opt", "rl", "lib", "py", "sp", "relenv"]
        "linux" "BINDIR" = ConfigVal.path ["opt", "rl", "Scripts"] ∧
    get_config_var_wrapped (fun n => n) [("RELENV_PIP_DIR", "1")]
        ["opt", "rl", "lib", "py", "sp", "relenv"] "linux" "BINDIR" =
      ConfigVal.path ["opt", "rl"] ∧
    get_config_var_wrapped (fun n => n) [] ["opt", "rl", "lib", "py", "sp", "relenv"]
        "linux" "CC" = ConfigVal.orig "CC" :=
  ⟨((get_config_var_wrapped_cases _ _ _ _).1 (by decide)).trans (by decide),
   ((get_config_var_wrapped_cases _ _ _ _).2.1 (by decide)).trans (by decide),
   ((get_config_var_wrapped_cases _ _ _ _).2.2 "CC" (by decide)).trans rfl⟩

/-- C5 counterexample: on the non-windows layout with `RELENV_PIP_DIR`
unset, the wrapped accessor called with `"BINDIR"` returns
`relenv_root() / "Scripts"`, not the bare Relocated Root the claim
states: the code has no platform branch around the `"Scripts"` suffix. -/
theorem get_config_var_nonwin_mode_off_cex :
    get_config_var_wrapped (fun n => n) []
        ["opt", "rl", "lib", "py", "sp", "relenv"] "linux" "BINDIR" =
      ConfigVal.path ((relenv_root ["opt", "rl", "lib", "py", "sp", "relenv"]
        "linux").child "Scripts") ∧
    get_config_var_wrapped (fun n => n) []
        ["opt", "rl", "lib", "py", "sp", "relenv"] "linux" "BINDIR" ≠
      ConfigVal.path (relenv_root ["opt", "rl", "lib", "py", "sp", "relenv"]
        "linux") := by
  decide

/-- C5 amended: with `RELENV_PIP_DIR` falsy the wrapped accessor returns
`relenv_root() / "Scripts"` for `"BINDIR"` on every platform, windows or
not (the bare Relocated Root is returned only when the mode is on). -/
theorem get_config_var_bindir_mode_off (func : String → String) (env : Env)
    (MODULE_DIR : PPath) (platform : String)
    (h : strTruthy (env.get "RELENV_PIP_DIR") = false) :
    get_config_var_wrapped func env MODULE_DIR platform "BINDIR" =
      ConfigVal.path ((relenv_root MODULE_DIR platform).child "Scripts") := by
  simp [get_config_var_wrapped, h]

/-- Witness for the amended C5: the mode-off `"BINDIR"` result on the
windows-style layout also carries the `"Scripts"` suffix. -/
theorem get_config_var_bindir_mode_off_witness :
    get_config_var_wrapped (fun n => n) [] ["rt", "Lib", "sp", "relenv"]
        "win32" "BINDIR" = ConfigVal.path ["rt", "Scripts"] :=
  (get_config_var_bindir_mode_off (fun n => n) [] ["rt", "Lib", "sp", "relenv"]
    "win32" (by decide)).trans (by decide)

/-- C9: `relenv_root` is a pure function of the module directory and the
platform (so every call in one process, where both are fixed, returns
the same path); the windows-style layout ascends exactly three directory
levels and every other layout four — one level deeper, the non-windows
root being the parent of the windows-formula root. -/
theorem relenv_root_levels (MODULE_DIR : PPath) :
    (∀ d₂ p₁ p₂, MODULE_DIR = d₂ → p₁ = p₂ →
      relenv_root MODULE_DIR p₁ = relenv_root d₂ p₂) ∧
    (relenv_root MODULE_DIR "win32").length = MODULE_DIR.length - 3 ∧
    (∀ platform, platform ≠ "win32" →
      (relenv_root MODULE_DIR platform).length = MODULE_DIR.length - 4 ∧
      relenv_root MODULE_DIR platform =
        (relenv_root MODULE_DIR "win32").parent) := by
  refine ⟨fun d₂ p₁ p₂ hd hp => by rw [hd, hp], ?_, fun platform hp => ⟨?_, ?_⟩⟩
  · simp [relenv_root, PPath.parent, List.length_dropLast]
    omega
  · simp [relenv_root, PPath.parent, hp, List.length_dropLast]
    omega
  · simp [relenv_root, PPath.parent, hp]

/-- Witness for C9: the level counts and the one-level-shallower
relation evaluated at a concrete six-component module directory. -/
theorem relenv_root_levels_witness :
    (relenv_root ["opt", "rl", "lib", "py", "sp", "relenv"] "win32").length =
      6 - 3 ∧
    (relenv_root ["opt", "rl", "lib", "py", "sp", "relenv"] "linux").length =
      6 - 4 ∧
    relenv_root ["opt", "rl", "lib", "py", "sp", "relenv"] "linux" =
      (relenv_root ["opt", "rl", "lib", "py", "sp", "relenv"] "win32").parent :=
  ⟨(relenv_root_levels _).2.1,
   ((relenv_root_levels _).2.2 "linux" (by decide)).1,
   ((relenv_root_levels _).2.2 "linux" (by decide)).2⟩

theorem importStep_keeps_distutils_flag (st : ProcState) (name : String)
    (h : st.importer.loading_distutils = true) :
    (importStep st name).importer.loading_distutils = true := by
  rcases st with ⟨imp, c⟩
  simp only [importStep, find_module, load_module]
  by_cases hn1 : pyStartsWith name "sysconfig"
  · simp only [hn1, if_true]
    cases hf : imp.loading_sysconfig <;> simp_all
  · by_cases hn2 : name = "pip._vendor.distlib.scripts"
    · simp only [hn1, hn2, if_false, if_true]
      cases hf : imp.loading_pip_scripts <;> simp_all
    · by_cases hn3 : name = "distutils.command.build_ext"
      · simp only [hn1, hn2, hn3] at *
        cases hf : imp.loading_distutils <;> simp_all
      · by_cases hn4 : name = "pip._internal.operations.install.wheel"
        · simp only [hn1, hn2, hn3, hn4] at *
          cases hf : imp.loading_op_wheel <;> simp_all
        · by_cases hn5 : name = "pip._internal.operations.install.legacy"
          · simp only [hn1, hn2, hn3, hn4, hn5] at *
            cases hf : imp.loading_op_legacy <;> simp_all
          · simp_all

theorem importStep_distutils_inv (st : ProcState) (name : String)
    (h1 : st.importer.loading_distutils = false → st.counts.distutils = 0)
    (h2 : st.counts.distutils ≤ 1) :
    ((importStep st name).importer.loading_distutils = false →
      (importStep st name).counts.distutils = 0) ∧
    (importStep st name).counts.distutils ≤ 1 := by
  rcases st with ⟨imp, c⟩
  simp only [importStep, find_module, load_module]
  by_cases hn1 : pyStartsWith name "sysconfig"
  · simp only [hn1, if_true]
    cases hf : imp.loading_sysconfig <;> simp_all
  · by_cases hn2 : name = "pip._vendor.distlib.scripts"
    · simp only [hn1, hn2, if_false, if_true] at *
      cases hf : imp.loading_pip_scripts <;> simp_all
    · by_cases hn3 : name = "distutils.command.build_ext"
      · simp only [hn1, hn2, hn3] at *
        cases hf : imp.loading_distutils <;> simp_all
      · by_cases hn4 : name = "pip._internal.operations.install.wheel"
        · simp only [hn1, hn2, hn3, hn4] at *
          cases hf : imp.loading_op_wheel <;> simp_all
        · by_cases hn5 : name = "pip._internal.operations.install.legacy"
          · simp only [hn1, hn2, hn3, hn4, hn5] at *
            cases hf : imp.loading_op_legacy <;> simp_all
          · simp_all

theorem runTrace_distutils_inv (names : List String) (st : ProcState)
    (h1 : st.importer.loading_distutils = false → st.counts.distutils = 0)
    (h2 : st.counts.distutils ≤ 1) :
    ((runTrace st names).importer.loading_distutils = false →
      (runTrace st names).counts.distutils = 0) ∧
    (runTrace st names).counts.distutils ≤ 1 := by
  induction names generalizing st with
  | nil => exact ⟨h1, h2⟩
  | cons name rest ih =>
      have h := importStep_distutils_inv st name h1 h2
      exact ih (importStep st name) h.1 h.2

theorem runTrace_keeps_distutils_flag (names : List String) (st : ProcState)
    (h : st.importer.loading_distutils = true) :
    (runTrace st names).importer.loading_distutils = true := by
  induction names generalizing st with
  | nil => exact h
  | cons name rest ih => exact ih _ (importStep_keeps_distutils_flag st name h)

theorem find_module_distutils_flag_true (imp : RelenvImporter)
    (h : imp.loading_distutils = true) :
    (find_module imp "distutils.command.build_ext").1 = false := by
  have hpre : pyStartsWith "distutils.command.build_ext" "sysconfig" = false := by
    decide
  have hne : "distutils.command.build_ext" ≠ "pip._vendor.distlib.scripts" := by
    decide
  simp [find_module, hpre, hne, h]

/-- C1 counterexample: running the probe/materialize cycle twice for the
target `pip._vendor.distlib.scripts` applies its patch function twice in
one process — `load_module` resets `loading_pip_scripts`, so the second
probe matches again and the claim's "patch applied at most once per
process" fails. -/
theorem importer_repatch_cex :
    (runTrace {} ["pip._vendor.distlib.scripts",
      "pip._vendor.distlib.scripts"]).counts.pip_scripts = 2 ∧
    ¬ ((runTrace {} ["pip._vendor.distlib.scripts",
      "pip._vendor.distlib.scripts"]).counts.pip_scripts ≤ 1) := by
  decide

/-- C1 amended: for each of the five targets, a probe while the flag is
in the transient "patching" state returns no match and leaves the state
unchanged (reentrancy guard), and a probe from the unpatched state
matches exactly once before the matching materialize — the match sets
the flag, and a repeated probe of the same target then returns no match.
The "applied at most once per process" consequence holds only for the
extension-build-configuration target (`distutils.command.build_ext`),
whose flag `load_module` never resets; for the other four targets the
flag is reset on materialize, so only at-most-once per
probe/materialize cycle holds (see `importer_repatch_cex`). -/
theorem importer_probe_once_guard (s : RelenvImporter) :
    (∀ nm, pyStartsWith nm "sysconfig" = true → s.loading_sysconfig = true →
      find_module s nm = (false, s)) ∧
    (s.loading_pip_scripts = true →
      find_module s "pip._vendor.distlib.scripts" = (false, s)) ∧
    (s.loading_distutils = true →
      find_module s "distutils.command.build_ext" = (false, s)) ∧
    (s.loading_op_wheel = true →
      find_module s "pip._internal.operations.install.wheel" = (false, s)) ∧
    (s.loading_op_legacy = true →
      find_module s "pip._internal.operations.install.legacy" = (false, s)) ∧
    (s.loading_sysconfig = false →
      find_module s "sysconfig" = (true, { s with loading_sysconfig := true }) ∧
      (find_module { s with loading_sysconfig := true } "sysconfig").1 = false) ∧
    (s.loading_pip_scripts = false →
      find_module s "pip._vendor.distlib.scripts" =
        (true, { s with loading_pip_scripts := true }) ∧
      (find_module { s with loading_pip_scripts := true }
        "pip._vendor.distlib.scripts").1 = false) ∧
    (s.loading_distutils = false →
      find_module s "distutils.command.build_ext" =
        (true, { s with loading_distutils := true }) ∧
      (find_module { s with loading_distutils := true }
        "distutils.command.build_ext").1 = false) ∧
    (s.loading_op_wheel = false →
      find_module s "pip._internal.operations.install.wheel" =
        (true, { s with loading_op_wheel := true }) ∧
      (find_module { s with loading_op_wheel := true }
        "pip._internal.operations.install.wheel").1 = false) ∧
    (s.loading_op_legacy = false →
      find_module s "pip._internal.operations.install.legacy" =
        (true, { s with loading_op_legacy := true }) ∧
      (find_module { s with loading_op_legacy := true }
        "pip._internal.operations.install.legacy").1 = false) ∧
    (∀ names, (runTrace {} names).counts.distutils ≤ 1) := by
  refine ⟨fun nm hpre hf => by simp [find_module, hpre, hf], fun hf => ?_,
    fun hf => ?_, fun hf => ?_, fun hf => ?_, fun hf => ⟨?_, ?_⟩,
    fun hf => ⟨?_, ?_⟩, fun hf => ⟨?_, ?_⟩, fun hf => ⟨?_, ?_⟩,
    fun hf => ⟨?_, ?_⟩,
    fun names =>
      (runTrace_distutils_inv names {} (fun _ => rfl) (by decide)).2⟩ <;>
    simp [find_module, hf, (by decide : pyStartsWith "sysconfig" "sysconfig" = true),
      (by decide : pyStartsWith "pip._vendor.distlib.scripts" "sysconfig" = false),
      (by decide : pyStartsWith "distutils.command.build_ext" "sysconfig" = false),
      (by decide : pyStartsWith "pip._internal.operations.install.wheel" "sysconfig" = false),
      (by decide : pyStartsWith "pip._internal.operations.install.legacy" "sysconfig" = false)]

/-- Witness for the amended C1, at the initial importer state and its
"patching" variants: the sysconfig guard, the one-shot pip-scripts
probe pair, and the at-most-once bound for the extension-build target
on a concrete two-import trace. -/
theorem importer_probe_once_guard_witness :
    find_module { loading_sysconfig := true } "sysconfig" =
      (false, { loading_sysconfig := true }) ∧
    find_module {} "pip._vendor.distlib.scripts" =
      (true, { loading_pip_scripts := true }) ∧
    (find_module { loading_pip_scripts := true }
      "pip._vendor.distlib.scripts").1 = false ∧
    (runTrace {} ["distutils.command.build_ext",
      "distutils.command.build_ext"]).counts.distutils ≤ 1 :=
  ⟨(importer_probe_once_guard _).1 "sysconfig" (by decide) rfl,
   ((importer_probe_once_guard {}).2.2.2.2.2.2.1 rfl).1,
   ((importer_probe_once_guard {}).2.2.2.2.2.2.1 rfl).2,
   (importer_probe_once_guard {}).2.2.2.2.2.2.2.2.2.2
     ["distutils.command.build_ext", "distutils.command.build_ext"]⟩

/-- C10 counterexample: for the target `pip._vendor.distlib.scripts`,
a second materialize does not wrap the already-patched function — the
branch's assignment `mod.ScriptMaker._build_shebang = _build_shebang`
replaces the attribute with the same fixed module-level function, so
applying it a second time leaves the attribute exactly as after the
first application (idempotent reassignment, no wrapping). -/
theorem pip_scripts_reassign_idempotent_cex :
    assignBuildShebang (assignBuildShebang ShebangAttr.original) =
      assignBuildShebang ShebangAttr.original ∧
    assignBuildShebang ShebangAttr.original =
      ShebangAttr.relenvBuildShebang := by
  decide

/-- C10 amended: `load_module` never resets `loading_distutils`, so once
the extension-build-configuration target has been materialized (its
flag is `true`) every later probe of `distutils.command.build_ext`
returns no match for the rest of the process; for each of the other
four targets `load_module` resets the flag, so after one
probe/materialize cycle the flag is back to its initial state, a later
probe for the same target name matches again, and a second materialize
executes the patch assignment a second time.  For the wrapping
assignments a second execution wraps the already-wrapped attribute one
layer deeper, but for `pip._vendor.distlib.scripts` the assignment
reinstalls the same module-level function, so nothing is re-wrapped
(see `pip_scripts_reassign_idempotent_cex`). -/
theorem distutils_no_reset_others_reset :
    (importStep {} "distutils.command.build_ext").importer.loading_distutils =
      true ∧
    (∀ st names, st.importer.loading_distutils = true →
      (runTrace st names).importer.loading_distutils = true ∧
      (find_module (runTrace st names).importer
        "distutils.command.build_ext").1 = false) ∧
    ((importStep {} "sysconfig").importer.loading_sysconfig = false ∧
      (find_module (importStep {} "sysconfig").importer "sysconfig").1 = true ∧
      (runTrace {} ["sysconfig", "sysconfig"]).counts.sysconfig = 2) ∧
    ((importStep {} "pip._vendor.distlib.scripts").importer.loading_pip_scripts =
        false ∧
      (find_module (importStep {} "pip._vendor.distlib.scripts").importer
        "pip._vendor.distlib.scripts").1 = true ∧
      (runTrace {} ["pip._vendor.distlib.scripts",
        "pip._vendor.distlib.scripts"]).counts.pip_scripts = 2) ∧
    ((importStep {} "pip._internal.operations.install.wheel").importer.loading_op_wheel =
        false ∧
      (find_module (importStep {} "pip._internal.operations.install.wheel").importer
        "pip._internal.operations.install.wheel").1 = true ∧
      (runTrace {} ["pip._internal.operations.install.wheel",
        "pip._internal.operations.install.wheel"]).counts.op_wheel = 2) ∧
    ((importStep {} "pip._internal.operations.install.legacy").importer.loading_op_legacy =
        false ∧
      (find_module (importStep {} "pip._internal.operations.install.legacy").importer
        "pip._internal.operations.install.legacy").1 = true ∧
      (runTrace {} ["pip._internal.operations.install.legacy",
        "pip._internal.operations.install.legacy"]).counts.op_legacy = 2) ∧
    (∀ depth, wrapLayers (wrapLayers depth) ≠ wrapLayers depth) ∧
    (∀ attr, assignBuildShebang (assignBuildShebang attr) =
      assignBuildShebang attr) := by
  refine ⟨by decide,
    fun st names h =>
      ⟨runTrace_keeps_distutils_flag names st h,
       find_module_distutils_flag_true _ (runTrace_keeps_distutils_flag names st h)⟩,
    by decide, by decide, by decide, by decide,
    fun depth => by simp [wrapLayers],
    fun attr => rfl⟩

/-- Witness for C10: the never-reset conjunct applied after a concrete
materialize of the extension-build target and a concrete later trace. -/
theorem distutils_no_reset_others_reset_witness :
    (runTrace (importStep {} "distutils.command.build_ext")
      ["sysconfig"]).importer.loading_distutils = true ∧
    (find_module (runTrace (importStep {} "distutils.command.build_ext")
      ["sysconfig"]).importer "distutils.command.build_ext").1 = false :=
  distutils_no_reset_others_reset.2.1
    (importStep {} "distutils.command.build_ext") ["sysconfig"] (by decide)


theorem Env.get_set_ne (e : Env) (k v k' : String) (h : k' ≠ k) :
    (e.set k v).get k' = e.get k' := by
  induction e with
  | nil => simp [Env.set, Env.get, Ne.symm h]
  | cons p rest ih =>
      rcases p with ⟨pk, pv⟩
      by_cases hk : pk = k
      · subst hk
        simp [Env.set, Env.get, Ne.symm h]
      · simp [Env.set, Env.get, hk, ih]

theorem trustStoreEnv₁_get (env : Env) (path k v : String) (hv : v ≠ "")
    (hk : env.get k = some v) : (trustStoreEnv₁ env path).get k = some v := by
  unfold trustStoreEnv₁
  by_cases h1 : k = "SSL_CERT_DIR"
  · subst h1
    have hg : strTruthy (some v) = true := by simp [strTruthy, hv]
    simp [hk, hg]
  · by_cases hg : strTruthy (env.get "SSL_CERT_DIR") <;>
      simp [hg, Env.get_set_ne _ _ _ _ h1, hk]

theorem trustStoreSuccessEnv_get (env : Env) (directory : String)
    (cfe : String → Bool) (k v : String) (hv : v ≠ "")
    (hk : env.get k = some v) :
    (trustStoreSuccessEnv env directory cfe).get k = some v := by
  have h₁ := trustStoreEnv₁_get env (stripQuotes (pyStrip directory)) k v hv hk
  simp only [trustStoreSuccessEnv]
  by_cases h2 : k = "SSL_CERT_FILE"
  · subst h2
    have hg : strTruthy ((trustStoreEnv₁ env
        (stripQuotes (pyStrip directory))).get "SSL_CERT_FILE") = true := by
      rw [h₁]; simp [strTruthy, hv]
    rw [if_neg (fun hco => hco.2 hg)]
    exact h₁
  · by_cases hcond : cfe (pjoin (stripQuotes (pyStrip directory)) "cert.pem") ∧
        ¬ strTruthy ((trustStoreEnv₁ env
          (stripQuotes (pyStrip directory))).get "SSL_CERT_FILE")
    · rw [if_pos hcond]
      rw [Env.get_set_ne _ _ _ _ h2]
      exact h₁
    · rw [if_neg hcond]
      exact h₁

/-- C2 counterexample: with `SSL_CERT_DIR` unset on a non-windows
platform, the `openssl` tool found, and the discovery subprocess
succeeding with the output `"abc"` — whose colon-split yields one field,
not two — `bootstrap` raises a `ValueError` at the tuple unpacking
`_, directory = proc.stdout.split(":")` instead of logging and
returning normally. -/
theorem bootstrap_unparsable_raises_cex :
    bootstrapTrustStore "linux" [] (some "/usr/bin/openssl")
      ⟨0, "abc", ""⟩ (fun _ => false) =
      Except.error "ValueError: unpacking proc.stdout.split" := by
  rfl

/-- C2 amended: the trust-store discovery of `bootstrap()` returns
normally when the `openssl` tool is missing, when the discovery
subprocess fails (non-zero return code), and when the subprocess
succeeds with output whose colon-split yields exactly two fields; but
when the discovery runs, succeeds, and the split yields any other
number of fields, the tuple unpacking raises a `ValueError`, so
`bootstrap` does not return normally on every unparsable output. -/
theorem bootstrap_trust_no_raise_cases (platform : String) (env : Env)
    (proc : ProcResult) (cfe : String → Bool) :
    (∃ r, bootstrapTrustStore platform env none proc cfe = Except.ok r) ∧
    (∀ bin, proc.returncode ≠ 0 →
      ∃ r, bootstrapTrustStore platform env (some bin) proc cfe =
        Except.ok r) ∧
    (∀ bin a b, pySplitOn proc.stdout ":" = [a, b] →
      ∃ r, bootstrapTrustStore platform env (some bin) proc cfe =
        Except.ok r) ∧
    (∀ bin, env.contains "SSL_CERT_DIR" = false → platform ≠ "win32" →
      proc.returncode = 0 → (pySplitOn proc.stdout ":").length ≠ 2 →
      bootstrapTrustStore platform env (some bin) proc cfe =
        Except.error "ValueError: unpacking proc.stdout.split") := by
  by_cases hc : ¬ env.contains "SSL_CERT_DIR" ∧ platform ≠ "win32"
  · refine ⟨⟨(env, false), by simp [bootstrapTrustStore, hc]⟩,
      fun bin hrc => ⟨(env, true), by simp [bootstrapTrustStore, hc, hrc]⟩,
      fun bin a b hsp => ?_, fun bin h1 h2 hrc hlen => ?_⟩
    · by_cases hrc : proc.returncode ≠ 0
      · exact ⟨(env, true), by simp [bootstrapTrustStore, hc, hrc]⟩
      · exact ⟨(trustStoreSuccessEnv env b cfe, true),
          by simp [bootstrapTrustStore, hc, not_not.mp hrc, hsp]⟩
    · rcases hsp : pySplitOn proc.stdout ":" with _ | ⟨a, _ | ⟨b, _ | ⟨c, l⟩⟩⟩
      · simp [bootstrapTrustStore, hc, hrc, hsp]
      · simp [bootstrapTrustStore, hc, hrc, hsp]
      · rw [hsp] at hlen; simp at hlen
      · simp [bootstrapTrustStore, hc, hrc, hsp]
  · have hok : ∀ w, bootstrapTrustStore platform env w proc cfe =
        Except.ok (env, false) := fun w => by
      simp only [bootstrapTrustStore]
      rw [if_neg hc]
    exact ⟨⟨(env, false), hok none⟩,
      fun bin _ => ⟨(env, false), hok (some bin)⟩,
      fun bin a b _ => ⟨(env, false), hok (some bin)⟩,
      fun bin h1 h2 _ _ => absurd ⟨by simp [h1], h2⟩ hc⟩

/-- Witness for the amended C2: the three non-raising cases and the
raising case evaluated at concrete inputs. -/
theorem bootstrap_trust_no_raise_cases_witness :
    (∃ r, bootstrapTrustStore "linux" [] none ⟨0, "", ""⟩ (fun _ => false) =
      Except.ok r) ∧
    (∃ r, bootstrapTrustStore "linux" [] (some "/usr/bin/openssl")
      ⟨1, "", "err"⟩ (fun _ => false) = Except.ok r) ∧
    (∃ r, bootstrapTrustStore "linux" [] (some "/usr/bin/openssl")
      ⟨0, "OPENSSLDIR: \"/usr/lib/ssl\"", ""⟩ (fun _ => true) =
      Except.ok r) ∧
    bootstrapTrustStore "linux" [] (some "/usr/bin/openssl")
      ⟨0, "a:b:c", ""⟩ (fun _ => false) =
      Except.error "ValueError: unpacking proc.stdout.split" :=
  ⟨(bootstrap_trust_no_raise_cases "linux" [] ⟨0, "", ""⟩ (fun _ => false)).1,
   (bootstrap_trust_no_raise_cases "linux" [] ⟨1, "", "err"⟩
     (fun _ => false)).2.1 "/usr/bin/openssl" (by decide),
   (bootstrap_trust_no_raise_cases "linux" []
     ⟨0, "OPENSSLDIR: \"/usr/lib/ssl\"", ""⟩ (fun _ => true)).2.2.1
     "/usr/bin/openssl" "OPENSSLDIR" " \"/usr/lib/ssl\"" (by decide),
   (bootstrap_trust_no_raise_cases "linux" [] ⟨0, "a:b:c", ""⟩
     (fun _ => false)).2.2.2 "/usr/bin/openssl" (by decide) (by decide)
     (by decide) (by decide)⟩

/-- C8 counterexample: an environment variable the caller already set —
`SSL_CERT_FILE` present with the empty value — is overwritten by
`bootstrap()`: with `SSL_CERT_DIR` absent the discovery block runs, and
the `SSL_CERT_FILE` write (runtime.py lines 426-427) is guarded only by
truthiness (`not os.environ.get("SSL_CERT_FILE")`), which treats the
present-but-empty variable as unset. -/
theorem bootstrap_overwrites_empty_certfile_cex :
    Env.contains [("SSL_CERT_FILE", "")] "SSL_CERT_FILE" = true ∧
    bootstrapTrustStore "linux" [("SSL_CERT_FILE", "")]
      (some "/usr/bin/openssl") ⟨0, "OPENSSLDIR: \"/ssl\"", ""⟩
      (fun _ => true) =
      Except.ok ([("SSL_CERT_FILE", "/ssl/cert.pem"),
        ("SSL_CERT_DIR", "/ssl/certs")], true) ∧
    Env.get [("SSL_CERT_FILE", "/ssl/cert.pem"),
      ("SSL_CERT_DIR", "/ssl/certs")] "SSL_CERT_FILE" ≠ some "" := by
  refine ⟨rfl, rfl, by decide⟩

/-- C8 amended: when `SSL_CERT_DIR` is already present in the
environment (so in particular when both trust-store variables are
pre-set), the trust-store discovery of `bootstrap()` spawns no
subprocess and returns the environment unchanged; and `bootstrap` never
overwrites an environment variable the caller set to a non-empty
value — the `SSL_CERT_DIR` and `SSL_CERT_FILE` writes are both guarded
by the variable not already being truthy.  A variable present with the
empty value is treated as unset by those guards and can be overwritten
(see `bootstrap_overwrites_empty_certfile_cex`). -/
theorem bootstrap_env_preserved (platform : String) (env : Env)
    (which : Option String) (proc : ProcResult) (cfe : String → Bool) :
    (env.contains "SSL_CERT_DIR" = true → env.contains "SSL_CERT_FILE" = true →
      bootstrapTrustStore platform env which proc cfe =
        Except.ok (env, false)) ∧
    (∀ k v, v ≠ "" → env.get k = some v →
      ∀ e' spawned,
        bootstrapTrustStore platform env which proc cfe =
          Except.ok (e', spawned) →
        e'.get k = some v) := by
  constructor
  · intro h1 _
    simp only [bootstrapTrustStore]
    rw [if_neg (fun hcond => hcond.1 (by simp [h1]))]
  · intro k v hv hk e' spawned heq
    by_cases hc : ¬ env.contains "SSL_CERT_DIR" ∧ platform ≠ "win32"
    · cases which with
      | none =>
          simp [bootstrapTrustStore, hc] at heq
          rw [← heq.1]; exact hk
      | some bin =>
          by_cases hrc : proc.returncode ≠ 0
          · simp [bootstrapTrustStore, hc, hrc] at heq
            rw [← heq.1]; exact hk
          · rcases hsp : pySplitOn proc.stdout ":" with _ | ⟨a, _ | ⟨b, _ | ⟨c, l⟩⟩⟩
            · simp [bootstrapTrustStore, hc, not_not.mp hrc, hsp] at heq
            · simp [bootstrapTrustStore, hc, not_not.mp hrc, hsp] at heq
            · simp [bootstrapTrustStore, hc, not_not.mp hrc, hsp] at heq
              rw [← heq.1]
              exact trustStoreSuccessEnv_get env b cfe k v hv hk
            · simp [bootstrapTrustStore, hc, not_not.mp hrc, hsp] at heq
    · have hok : bootstrapTrustStore platform env which proc cfe =
          Except.ok (env, false) := by
        simp only [bootstrapTrustStore]
        rw [if_neg hc]
      rw [hok] at heq
      simp at heq
      rw [← heq.1]; exact hk

/-- Witness for C8: with both trust-store variables pre-set the result
is the unchanged environment with no subprocess spawned; and a caller
variable `FOO=bar` survives a full successful discovery run that writes
both trust-store variables. -/
theorem bootstrap_env_preserved_witness :
    bootstrapTrustStore "linux"
      [("SSL_CERT_DIR", "/e"), ("SSL_CERT_FILE", "/f")]
      (some "/usr/bin/openssl") ⟨0, "x:y", ""⟩ (fun _ => true) =
      Except.ok ([("SSL_CERT_DIR", "/e"), ("SSL_CERT_FILE", "/f")], false) ∧
    Env.get [("FOO", "bar"), ("SSL_CERT_DIR", "/ssl/certs"),
      ("SSL_CERT_FILE", "/ssl/cert.pem")] "FOO" = some "bar" :=
  ⟨(bootstrap_env_preserved "linux" _ _ ⟨0, "x:y", ""⟩ (fun _ => true)).1
     (by decide) (by decide),
   (bootstrap_env_preserved "linux" [("FOO", "bar")] (some "/usr/bin/openssl")
     ⟨0, "OPENSSLDIR: \"/ssl\"", ""⟩ (fun _ => true)).2 "FOO" "bar"
     (by decide) (by decide)
     [("FOO", "bar"), ("SSL_CERT_DIR", "/ssl/certs"),
       ("SSL_CERT_FILE", "/ssl/cert.pem")] true (by rfl)⟩


theorem installWheelCalls_cons (plat rootdir l : String) (rest : List String)
    (fileExists isElf : String → Bool) :
    installWheelCalls plat rootdir (l :: rest) fileExists isElf =
      (if fileExists (pjoin plat (recordFirstField l)) &&
          isElf (pjoin plat (recordFirstField l)) then
        [⟨pjoin plat (pjoin plat (recordFirstField l)), pjoin rootdir "lib",
          true, rootdir⟩]
      else []) ++ installWheelCalls plat rootdir rest fileExists isElf := by
  simp only [installWheelCalls, List.filterMap_cons]
  by_cases hfe : fileExists (pjoin plat (recordFirstField l)) <;>
    by_cases hel : isElf (pjoin plat (recordFirstField l)) <;>
    simp [hfe, hel]

/-- C3: the post-delegation manifest pass of the wrapped wheel installer
invokes the rewrite primitive exactly once per `RECORD` entry whose file
both exists and is detected as dynamically linked (`M` of the `N`
lines), never for the `N−M` missing or non-ELF entries, and every
invocation has write enabled, targets `relenv_root() / "lib"`, and is
scoped to the Relocated Root. -/
theorem install_wheel_rewrite_calls (plat rootdir : String)
    (recordLines : List String) (fileExists isElf : String → Bool) :
    (installWheelCalls plat rootdir recordLines fileExists isElf).length =
      (recordLines.filter (fun line =>
        fileExists (pjoin plat (recordFirstField line)) &&
        isElf (pjoin plat (recordFirstField line)))).length ∧
    (∀ call ∈ installWheelCalls plat rootdir recordLines fileExists isElf,
      call.writeEnabled = true ∧ call.libdir = pjoin rootdir "lib" ∧
      call.rootScope = rootdir ∧
      ∃ line ∈ recordLines,
        fileExists (pjoin plat (recordFirstField line)) = true ∧
        isElf (pjoin plat (recordFirstField line)) = true ∧
        call.file = pjoin plat (pjoin plat (recordFirstField line))) := by
  constructor
  · induction recordLines with
    | nil => simp [installWheelCalls]
    | cons l rest ih =>
        rw [installWheelCalls_cons, List.filter_cons]
        by_cases h : fileExists (pjoin plat (recordFirstField l)) &&
            isElf (pjoin plat (recordFirstField l)) <;>
          simp [h, ih]
  · intro call hcall
    rw [installWheelCalls, List.mem_filterMap] at hcall
    obtain ⟨line, hline, hf⟩ := hcall
    by_cases hfe : fileExists (pjoin plat (recordFirstField line))
    · by_cases hel : isElf (pjoin plat (recordFirstField line))
      · simp only [hfe, hel, Bool.not_true, Bool.false_eq_true, if_false,
          if_true, reduceIte, Option.some.injEq] at hf
        cases hf
        exact ⟨rfl, rfl, rfl, line, hline, hfe, hel, rfl⟩
      · simp [hfe, hel] at hf
    · simp [hfe] at hf

/-- Witness for C3: a three-line manifest with one existing ELF entry,
one existing non-ELF entry, and one missing entry produces exactly one
rewrite call, carrying write-enabled, the `lib` directory and the root
scope. -/
theorem install_wheel_rewrite_calls_witness :
    (installWheelCalls "/plat" "/rt" ["libfoo.so,h,1", "README.md,h,2",
      "gone.so,h,3"] (fun s => s != "/plat/gone.so")
      (fun s => s == "/plat/libfoo.so")).length = 1 ∧
    (ElfCall.mk "/plat/libfoo.so" "/rt/lib" true "/rt").writeEnabled = true ∧
    (ElfCall.mk "/plat/libfoo.so" "/rt/lib" true "/rt").libdir =
      pjoin "/rt" "lib" ∧
    (ElfCall.mk "/plat/libfoo.so" "/rt/lib" true "/rt").rootScope = "/rt" :=
  ⟨(install_wheel_rewrite_calls "/plat" "/rt" _ _ _).1.trans (by decide),
   ((install_wheel_rewrite_calls "/plat" "/rt" ["libfoo.so,h,1",
      "README.md,h,2", "gone.so,h,3"] (fun s => s != "/plat/gone.so")
      (fun s => s == "/plat/libfoo.so")).2
      (ElfCall.mk "/plat/libfoo.so" "/rt/lib" true "/rt") (by decide)).1,
   ((install_wheel_rewrite_calls "/plat" "/rt" ["libfoo.so,h,1",
      "README.md,h,2", "gone.so,h,3"] (fun s => s != "/plat/gone.so")
      (fun s => s == "/plat/libfoo.so")).2
      (ElfCall.mk "/plat/libfoo.so" "/rt/lib" true "/rt") (by decide)).2.1,
   ((install_wheel_rewrite_calls "/plat" "/rt" ["libfoo.so,h,1",
      "README.md,h,2", "gone.so,h,3"] (fun s => s != "/plat/gone.so")
      (fun s => s == "/plat/libfoo.so")).2
      (ElfCall.mk "/plat/libfoo.so" "/rt/lib" true "/rt") (by decide)).2.2.1⟩

theorem find?_eq_none_of_filter_nil {α : Type} (p : α → Bool) (l : List α)
    (h : l.filter p = []) : l.find? p = none := by
  induction l with
  | nil => rfl
  | cons a rest ih =>
      rw [List.filter_cons] at h
      by_cases hp : p a
      · simp [hp] at h
      · rw [List.find?_cons]
        simp only [hp] at h ⊢
        simp [hp, ih h]

theorem find?_of_filter_singleton {α : Type} (p : α → Bool) (l : List α)
    (d : α) (h : l.filter p = [d]) : l.find? p = some d := by
  induction l with
  | nil => simp at h
  | cons a rest ih =>
      rw [List.filter_cons] at h
      by_cases hp : p a
      · simp only [hp, if_true] at h
        obtain ⟨rfl, -⟩ := List.cons.inj h
        simp [List.find?_cons, hp]
      · simp only [hp] at h
        simp only [List.find?_cons, hp]
        simp [hp] at h ⊢
        exact ih h

theorem filter_append_singleton {α : Type} (p : α → Bool) (xs ys : List α)
    (d : α) (h : (xs ++ ys).filter p = [d]) :
    (xs.filter p = [d] ∧ ys.filter p = []) ∨
    (xs.filter p = [] ∧ ys.filter p = [d]) := by
  rw [List.filter_append] at h
  rcases hx : xs.filter p with _ | ⟨x, xrest⟩
  · rw [hx] at h
    simp only [List.nil_append] at h
    exact Or.inr ⟨rfl, h⟩
  · rw [hx] at h
    simp only [List.cons_append] at h
    obtain ⟨rfl, htail⟩ := List.cons.inj h
    obtain ⟨h1, h2⟩ := List.append_eq_nil.mp htail
    exact Or.inl ⟨by rw [h1], h2⟩

/-- C7: for a legacy install whose `PKG-INFO` parses to name `nm` and
version `ver`, after the delegation the wrapper searches the
version-specific site directory's candidates and then the generic site
directory's candidates for an `.egg-info` name starting with
`"{nm}-{ver}"`; when exactly one candidate among the two directories
matches, exactly that directory's `installed-files.txt` manifest is
processed, and when no candidate matches the wrapper returns
non-fatally (`notFound`, logged only). -/
theorem install_legacy_matching (pkgInfoLines : List String) (nm ver : String)
    (prefixDirs : Option (List String)) (purelibDirs : List String)
    (manifests : String → List String) (plat rootdir : String)
    (fileExists isElf : String → Bool)
    (hparse : parsePkgInfo pkgInfoLines none none =
      Except.ok (some nm, some ver)) :
    (∀ d, ((prefixDirs.getD []) ++ purelibDirs).filter
        (fun p => pyStartsWith p (nm ++ "-" ++ ver)) = [d] →
      installLegacyPost pkgInfoLines prefixDirs purelibDirs manifests plat
        rootdir fileExists isElf =
        Except.ok (LegacyResult.processed d
          (legacyManifestCalls plat rootdir (manifests d) fileExists isElf))) ∧
    (((prefixDirs.getD []) ++ purelibDirs).filter
        (fun p => pyStartsWith p (nm ++ "-" ++ ver)) = [] →
      installLegacyPost pkgInfoLines prefixDirs purelibDirs manifests plat
        rootdir fileExists isElf = Except.ok LegacyResult.notFound) := by
  constructor
  · intro d hd
    have hsel : selectEgginfo (some nm) (some ver) prefixDirs purelibDirs =
        some d := by
      cases prefixDirs with
      | none =>
          simp only [Option.getD_none, List.nil_append] at hd
          simp only [selectEgginfo, optStr, Option.getD_some]
          rw [find?_of_filter_singleton _ _ _ hd]
      | some dirs =>
          simp only [Option.getD_some] at hd
          rcases filter_append_singleton _ _ _ _ hd with ⟨h1, h2⟩ | ⟨h1, h2⟩
          · simp only [selectEgginfo, optStr, Option.getD_some]
            rw [find?_eq_none_of_filter_nil _ _ h2,
              find?_of_filter_singleton _ _ _ h1]
          · simp only [selectEgginfo, optStr, Option.getD_some]
            rw [find?_of_filter_singleton _ _ _ h2]
    simp only [installLegacyPost, hparse]
    rw [hsel]
  · intro h0
    have hsel : selectEgginfo (some nm) (some ver) prefixDirs purelibDirs =
        none := by
      cases prefixDirs with
      | none =>
          simp only [Option.getD_none, List.nil_append] at h0
          simp only [selectEgginfo, optStr, Option.getD_some]
          rw [find?_eq_none_of_filter_nil _ _ h0]
      | some dirs =>
          simp only [Option.getD_some] at h0
          rw [List.filter_append] at h0
          obtain ⟨h1, h2⟩ := List.append_eq_nil.mp h0
          simp only [selectEgginfo, optStr, Option.getD_some]
          rw [find?_eq_none_of_filter_nil _ _ h2,
            find?_eq_none_of_filter_nil _ _ h1]
    simp only [installLegacyPost, hparse]
    rw [hsel]

/-- Witness for C7: descriptor `Name: foo` / `Version: 1.2`, one
non-matching candidate in the version-specific directory and one
matching candidate in the generic directory — exactly the matching
directory's manifest is processed; and with no matching candidate the
wrapper returns `notFound`. -/
theorem install_legacy_matching_witness :
    installLegacyPost ["Name: foo", "Version: 1.2"]
      (some ["bar-0.9-py3.egg-info"]) ["foo-1.2-py3.9.egg-info"]
      (fun _ => ["/x/lib.so\n", "/x/doc.txt\n"]) "/plat" "/rt"
      (fun _ => true) (fun s => s == "/x/lib.so") =
      Except.ok (LegacyResult.processed "foo-1.2-py3.9.egg-info"
        [ElfCall.mk "/x/lib.so" "/rt/lib" true "/rt"]) ∧
    installLegacyPost ["Name: foo", "Version: 1.2"]
      (some ["bar-0.9-py3.egg-info"]) ["baz-2.0-py3.egg-info"]
      (fun _ => ["/x/lib.so\n"]) "/plat" "/rt" (fun _ => true)
      (fun s => s == "/x/lib.so") = Except.ok LegacyResult.notFound :=
  ⟨((install_legacy_matching _ "foo" "1.2" _ _ _ _ _ _ _ (by rfl)).1
      "foo-1.2-py3.9.egg-info" (by decide)).trans (by rfl),
   (install_legacy_matching _ "foo" "1.2" _ _ _ _ _ _ _ (by rfl)).2
     (by decide)⟩
